import Mathlib

/-!
Shallow embedding of the lsd-server backend (src/server.js and the payments
revision src/unnamed/part_001) over explicit state passing.

Timestamps are modelled as natural numbers of milliseconds since the epoch
(ISO-8601 strings in the store compare exactly like their millisecond values,
and the server is assumed to run with a UTC wall clock, which is what the
`setHours(24,0,0,0)` arithmetic in `nextAlmatyMidnightISO` relies on).
Each request handler is modelled as a function from the durable-store state
(the user's row, chat rows, message rows, task-state document) and the
request inputs to the resulting store state and response data, with the
current time `now` passed explicitly.
-/

namespace Lsd

/-- Milliseconds in one day. -/
def msPerDay : Nat := 86400000

/-- `RESET_TZ_OFFSET_MIN = 5 * 60` minutes, in milliseconds (Asia/Almaty, UTC+5). -/
def RESET_TZ_OFFSET_MS : Nat := 5 * 60 * 60 * 1000

/-- `nextAlmatyMidnightISO(fromDate)`: shift `now` by the offset, truncate to the
next midnight in the shifted frame (`setHours(24,0,0,0)`), shift back to UTC. -/
def nextAlmatyMidnight (now : Nat) : Nat :=
  ((now + RESET_TZ_OFFSET_MS) / msPerDay + 1) * msPerDay - RESET_TZ_OFFSET_MS

/-- A row of the `lsd_users` table.  `premium_until` and `quota_next_reset_at` are
nullable timestamp columns; `plans_left` / `media_left` are nullable integer
columns (the code guards every read of them with `Number.isFinite`); the
`updated_at` bookkeeping column is not modelled.  `current_plan` is an opaque
document, modelled as an opaque string. -/
structure User where
  tg_id : Nat
  tier : String
  premium_until : Option Nat
  plans_left : Option Int
  media_left : Option Int
  quota_next_reset_at : Option Nat
  current_plan : Option String
deriving DecidableEq

/-- JavaScript `String.prototype.toLowerCase`, modelled as a character-wise
lowering (the tier labels stored by this code are plain ASCII). -/
def lowerAscii (s : String) : String := String.mk (s.data.map Char.toLower)

/-- `isPremiumActive(user)`: `until` is 0 when `premium_until` is null, and the
check is `!!until && until > Date.now()`. -/
def isPremiumActive (u : User) (now : Nat) : Bool :=
  match u.premium_until with
  | none => false
  | some t => decide (t ≠ 0) && decide (now < t)

/-- `effectiveTier(user)`: `developer` if the stored label says so, else
`premium` while `premium_until` is in the future, else `free`. -/
def effectiveTier (u : User) (now : Nat) : String :=
  if lowerAscii u.tier = "developer" then "developer"
  else if isPremiumActive u now then "premium" else "free"

/-- One entry of `DAILY_LIMITS`; `none` stands for `Infinity`
(`Number.isFinite` is false exactly on `none`). -/
structure TierLimits where
  plans : Option Nat
  media : Option Nat
deriving DecidableEq

/-- The `DAILY_LIMITS` table: free 3/3, premium 30/30, developer unlimited. -/
def DAILY_LIMITS (tier : String) : TierLimits :=
  if tier = "free" then ⟨some 3, some 3⟩
  else if tier = "premium" then ⟨some 30, some 30⟩
  else ⟨none, none⟩

/-- The two quota kinds accepted by `consumeQuota`. -/
inductive QKind where
  | plans
  | media
deriving DecidableEq

/-- Field lookup `lim[kind]`. -/
def TierLimits.get (l : TierLimits) : QKind → Option Nat
  | .plans => l.plans
  | .media => l.media

/-- Field lookup `user[leftField]` where
`leftField = kind === "media" ? "media_left" : "plans_left"`. -/
def User.leftOf (u : User) : QKind → Option Int
  | .plans => u.plans_left
  | .media => u.media_left

/-- Write to `user[leftField]`. -/
def User.setLeft (u : User) (k : QKind) (v : Int) : User :=
  match k with
  | .plans => { u with plans_left := some v }
  | .media => { u with media_left := some v }

/-- `Number.isFinite(x) ? x : 0` on a nullable integer column. -/
def numOr0 (x : Option Int) : Int := x.getD 0

/-- `getOrCreateUserAndFreshen(tg_id)` as a state transformer on the user's row:
create with free-tier defaults when absent, backfill a missing
`quota_next_reset_at`, and when the stored boundary is due reset the finite
counters of the effective tier and advance the boundary.  The returned record
is also the row as stored after the call. -/
def getOrCreateUserAndFreshen (row : Option User) (tg now : Nat) : User :=
  match row with
  | none =>
      { tg_id := tg, tier := "free", premium_until := none,
        plans_left := some 3, media_left := some 3,
        quota_next_reset_at := some (nextAlmatyMidnight now), current_plan := none }
  | some existing =>
      let user : User :=
        match existing.quota_next_reset_at with
        | none => { existing with quota_next_reset_at := some (nextAlmatyMidnight now) }
        | some _ => existing
      let due : Bool :=
        match user.quota_next_reset_at with
        | some r => decide (now ≥ r)
        | none => false
      if due then
        let tier := effectiveTier user now
        let lim := DAILY_LIMITS tier
        let u1 : User :=
          match lim.plans with
          | some p => { user with plans_left := some (p : Int) }
          | none => user
        let u2 : User :=
          match lim.media with
          | some m => { u1 with media_left := some (m : Int) }
          | none => u1
        { u2 with quota_next_reset_at := some (nextAlmatyMidnight now) }
      else user

/-- The value returned by `consumeQuota`; `user` is also the row as stored
after the call (the reset-countdown fields of the response are not modelled). -/
structure ConsumeResult where
  ok : Bool
  error : Option String
  user : User
deriving DecidableEq

/-- `consumeQuota(tg_id, kind)`: resolve the user, grant without decrementing on
unlimited tiers, deny with `no_*_left` when the counter is not positive, else
write back `left - 1` (an absolute value computed from the row it read). -/
def consumeQuota (row : Option User) (tg now : Nat) (kind : QKind) : ConsumeResult :=
  let user := getOrCreateUserAndFreshen row tg now
  let tier := effectiveTier user now
  let lim := DAILY_LIMITS tier
  if tier = "developer" || (lim.get kind).isNone then
    { ok := true, error := none, user := user }
  else
    let left := numOr0 (user.leftOf kind)
    if left ≤ 0 then
      { ok := false,
        error := some (match kind with | .media => "no_media_left" | .plans => "no_plans_left"),
        user := user }
    else
      { ok := true, error := none, user := user.setLeft kind (left - 1) }

/-- `planToDays(plan)`: `plan === "year" ? 365 : 30`. -/
def planToDays (plan : String) : Nat := if plan = "year" then 365 else 30

/-- `addDaysISO(baseISO, days)` on a present base timestamp:
`base + days * 24*60*60*1000`. -/
def addDaysMs (base days : Nat) : Nat := base + days * msPerDay

/-- `activatePremiumForUser(tg_id, plan)`: resolve the user, extend
`premium_until` from the current expiry while it is active (else from now),
set the stored tier label to `"premium"`, reset both counters to the premium
limits and recompute the reset boundary.  The result is the stored row. -/
def activatePremiumForUser (row : Option User) (tg now : Nat) (plan : String) : User :=
  let user := getOrCreateUserAndFreshen row tg now
  let days := planToDays plan
  let base := if isPremiumActive user now then user.premium_until.getD now else now
  let premium_until := addDaysMs base days
  { user with
    tier := "premium"
    premium_until := some premium_until
    plans_left := some ((30 : Nat) : Int)
    media_left := some ((30 : Nat) : Int)
    quota_next_reset_at := some (nextAlmatyMidnight now) }

/-- A row of the `lsd_payments` table; `(tg_id, provider_charge_id)` carries the
uniqueness constraint. -/
structure Payment where
  tg_id : Nat
  provider_charge_id : String
  currency : String
  total_amount : Option Int
  plan : String
deriving DecidableEq

/-- A Telegram update as far as the webhook handler inspects it.  `payload` is
the parsed `invoice_payload`: `none` when parsing fails or the contained
`tg_id` is not a finite number, else the `tg_id` and the raw `plan` string. -/
inductive TgUpdate where
  | preCheckout (payload : Option (Nat × String))
  | successfulPayment (payload : Option (Nat × String))
      (chargeId currency : String) (amount : Option Int)
  | other
deriving DecidableEq

/-- State touched by the webhook: the payments table and the sender's user row. -/
structure WebhookState where
  payments : List Payment
  row : Option User
deriving DecidableEq

/-- `app.post("/telegram/webhook")`: check the shared-secret header when one is
configured (mismatch answers 401); answer `pre_checkout_query` events after
validating the payload and ensuring the user row exists; on
`successful_payment` with a valid payload, insert the payment row — a
uniqueness conflict on `(tg_id, provider_charge_id)` is swallowed — and then
call `activatePremiumForUser` (the code performs this call unconditionally,
whether or not the insert conflicted); every path through the try block and
the catch-all answer HTTP 200.  `activateThrows` is true when a store error
inside `activatePremiumForUser` throws: the outer catch still answers 200 and
the user row keeps its prior value.  Returns the HTTP status and the state. -/
def telegramWebhook (cfgSecret header : Option String) (upd : TgUpdate)
    (activateThrows : Bool) (st : WebhookState) (now : Nat) : Nat × WebhookState :=
  if cfgSecret.isSome && header != cfgSecret then
    (401, st)
  else
    match upd with
    | .preCheckout payload =>
        match payload with
        | some (tg, plan) =>
            if plan = "month" || plan = "year" then
              (200, { st with row := some (getOrCreateUserAndFreshen st.row tg now) })
            else (200, st)
        | none => (200, st)
    | .successfulPayment payload chargeId currency amount =>
        match payload with
        | some (tg, plan) =>
            if plan = "month" || plan = "year" then
              let dup := st.payments.any
                (fun p => p.tg_id == tg && p.provider_charge_id == chargeId)
              let payments2 :=
                if dup then st.payments
                else st.payments ++ [⟨tg, chargeId, currency, amount, plan⟩]
              if activateThrows then (200, ⟨payments2, st.row⟩)
              else (200, ⟨payments2, some (activatePremiumForUser st.row tg now plan)⟩)
            else (200, st)
        | none => (200, st)
    | .other => (200, st)

/-- One user's transition under `resetDueUsersBatch`: the two bulk `update`
statements match on the stored `tier` label (`"free"` / `"premium"`) and on
`quota_next_reset_at <= now` (false on a null column) and write that label's
configured limits plus the recomputed boundary; rows matching neither
statement are untouched. -/
def sweepResetUser (u : User) (now : Nat) : User :=
  let due : Bool :=
    match u.quota_next_reset_at with
    | some r => decide (r ≤ now)
    | none => false
  if u.tier == "free" && due then
    { u with
      plans_left := ((DAILY_LIMITS "free").plans).map (fun n => (n : Int))
      media_left := ((DAILY_LIMITS "free").media).map (fun n => (n : Int))
      quota_next_reset_at := some (nextAlmatyMidnight now) }
  else if u.tier == "premium" && due then
    { u with
      plans_left := ((DAILY_LIMITS "premium").plans).map (fun n => (n : Int))
      media_left := ((DAILY_LIMITS "premium").media).map (fun n => (n : Int))
      quota_next_reset_at := some (nextAlmatyMidnight now) }
  else u

/-- `resetDueUsersBatch()` over the whole `lsd_users` table, with a single
`now` captured at the start of the batch. -/
def resetDueUsersBatch (users : List User) (now : Nat) : List User :=
  users.map (fun u => sweepResetUser u now)

/-- A row of the `lsd_chats` table; `(tg_id, chat_id)` is the upsert key. -/
structure ChatRow where
  tg_id : Nat
  chat_id : String
  title : String
  emoji : String
  updated_at : Nat
deriving DecidableEq

/-- A row of the `lsd_messages` table; `msg_id` is nullable and
`(tg_id, msg_id)` is the upsert key used for id-bearing rows. -/
structure MsgRow where
  tg_id : Nat
  chat_id : String
  msg_id : Option String
  role : String
  content : String
  created_at : Nat
deriving DecidableEq

/-- The task-state document `{ groups: [...] }`; its contents are opaque to the
server, so the groups are modelled as opaque values. -/
structure TasksState where
  groups : List Nat
deriving DecidableEq

/-- A chat element of a push payload after `safeStr` (non-strings become `""`);
`created_at`-style `updated_at` is `none` when absent/empty (`|| nowISO()`). -/
structure ChatIn where
  chat_id : String
  title : String
  emoji : String
  updated_at : Option Nat
deriving DecidableEq

/-- A message element of a push payload after `safeStr`;
`created_at` is `none` when absent/empty (`|| nowISO()`). -/
structure MsgIn where
  chat_id : String
  msg_id : String
  role : String
  content : String
  created_at : Option Nat
deriving DecidableEq

/-- The `ok` validity check of `upsertMessages`: a chat id, a role that is
`"user"` or `"assistant"`, and non-empty content. -/
def validMsg (m : MsgIn) : Bool :=
  decide (m.chat_id ≠ "") && (m.role == "user" || m.role == "assistant")
    && decide (m.content ≠ "")

/-- The stored row built from one push message: empty `msg_id` becomes null,
missing `created_at` becomes `nowISO()`. -/
def mkMsgRow (tg : Nat) (m : MsgIn) (now : Nat) : MsgRow :=
  ⟨tg, m.chat_id, if m.msg_id = "" then none else some m.msg_id,
    m.role, m.content, m.created_at.getD now⟩

/-- Upsert of one row with `onConflict: "tg_id,msg_id"`: overwrite the existing
row carrying the key in place, else append. -/
def upsertMsgRow (table : List MsgRow) (r : MsgRow) : List MsgRow :=
  if table.any (fun x => x.tg_id == r.tg_id && x.msg_id == r.msg_id) then
    table.map (fun x => if x.tg_id == r.tg_id && x.msg_id == r.msg_id then r else x)
  else table ++ [r]

/-- `upsertMessages(tg_id, messages)`: drop invalid rows silently, split the
rest on whether a `msg_id` is present, upsert the id-bearing batch by
`(tg_id, msg_id)`, then plainly insert the id-less batch. -/
def upsertMessages (table : List MsgRow) (tg : Nat) (messages : List MsgIn)
    (now : Nat) : List MsgRow :=
  let valid := messages.filter validMsg
  let withId := (valid.filter (fun m => decide (m.msg_id ≠ ""))).map
    (fun m => mkMsgRow tg m now)
  let withoutId := (valid.filter (fun m => m.msg_id == "")).map
    (fun m => mkMsgRow tg m now)
  (withId.foldl upsertMsgRow table) ++ withoutId

/-- The stored row built from one push chat: default title `"Чат"`, default
emoji `"💬"`, missing `updated_at` becomes `nowISO()`. -/
def mkChatRow (tg : Nat) (c : ChatIn) (now : Nat) : ChatRow :=
  ⟨tg, c.chat_id, if c.title = "" then "Чат" else c.title,
    if c.emoji = "" then "💬" else c.emoji, c.updated_at.getD now⟩

/-- Upsert of one chat row with `onConflict: "tg_id,chat_id"`. -/
def upsertChatRow (table : List ChatRow) (r : ChatRow) : List ChatRow :=
  if table.any (fun x => x.tg_id == r.tg_id && x.chat_id == r.chat_id) then
    table.map (fun x => if x.tg_id == r.tg_id && x.chat_id == r.chat_id then r else x)
  else table ++ [r]

/-- `upsertChats(tg_id, chats)`: rows lacking a chat id are dropped, the rest
are upserted by `(tg_id, chat_id)` (last writer wins). -/
def upsertChats (table : List ChatRow) (tg : Nat) (chats : List ChatIn)
    (now : Nat) : List ChatRow :=
  ((chats.map (fun c => mkChatRow tg c now)).filter
    (fun r => decide (r.chat_id ≠ ""))).foldl upsertChatRow table

/-- `getOrCreateChat(tg_id, chat_id, title, emoji)` on the chats table. -/
def getOrCreateChat (chats : List ChatRow) (tg : Nat) (cid title emoji : String)
    (now : Nat) : List ChatRow :=
  if chats.any (fun c => c.tg_id == tg && c.chat_id == cid) then chats
  else chats ++ [⟨tg, cid, title, emoji, now⟩]

/-- `touchChatUpdatedAt(tg_id, chat_id)`: bump `updated_at` on the keyed row. -/
def touchChatUpdatedAt (chats : List ChatRow) (tg : Nat) (cid : String)
    (now : Nat) : List ChatRow :=
  chats.map (fun c => if c.tg_id == tg && c.chat_id == cid then
    { c with updated_at := now } else c)

/-- The projection selected by `listChats`
(`select("chat_id,title,emoji,updated_at")`). -/
structure ChatOut where
  chat_id : String
  title : String
  emoji : String
  updated_at : Nat
deriving DecidableEq

/-- The projection returned by `listMessages`
(`select("chat_id,msg_id,role,content,created_at")`, `msg_id ?? null`). -/
structure MsgOut where
  chat_id : String
  msg_id : Option String
  role : String
  content : String
  created_at : Nat
deriving DecidableEq

/-- Most-recently-updated-first order on chat rows
(`order("updated_at", { ascending: false })`). -/
def chatDesc (a b : ChatRow) : Prop := b.updated_at ≤ a.updated_at

instance : DecidableRel chatDesc := fun a b => Nat.decLe b.updated_at a.updated_at

instance : IsTotal ChatRow chatDesc := ⟨fun a b => Nat.le_total b.updated_at a.updated_at⟩

instance : IsTrans ChatRow chatDesc :=
  ⟨fun _ _ _ h1 h2 => Nat.le_trans h2 h1⟩

/-- Oldest-first order on message rows (`order("created_at", { ascending: true })`). -/
def msgAsc (a b : MsgRow) : Prop := a.created_at ≤ b.created_at

instance : DecidableRel msgAsc := fun a b => Nat.decLe a.created_at b.created_at

instance : IsTotal MsgRow msgAsc := ⟨fun a b => Nat.le_total a.created_at b.created_at⟩

instance : IsTrans MsgRow msgAsc :=
  ⟨fun _ _ _ h1 h2 => Nat.le_trans h1 h2⟩

/-- The column selection applied to a chat row by `listChats`. -/
def chatOutOf (c : ChatRow) : ChatOut := ⟨c.chat_id, c.title, c.emoji, c.updated_at⟩

/-- The column selection applied to a message row by `listMessages`. -/
def msgOutOf (m : MsgRow) : MsgOut := ⟨m.chat_id, m.msg_id, m.role, m.content, m.created_at⟩

/-- `listChats(tg_id)`: the user's chat rows ordered by `updated_at`
descending, limited to 200, projected. -/
def listChats (chats : List ChatRow) (tg : Nat) : List ChatOut :=
  (((chats.filter (fun c => c.tg_id == tg)).insertionSort chatDesc).take 200).map chatOutOf

/-- `listMessages(tg_id, sinceISO)`: the user's message rows, filtered by
`created_at >= since` when a cursor is supplied, ordered by `created_at`
ascending, limited to 4000, projected. -/
def listMessages (msgs : List MsgRow) (tg : Nat) (since : Option Nat) : List MsgOut :=
  let base := msgs.filter (fun m => m.tg_id == tg)
  let filtered : List MsgRow :=
    match since with
    | some s => base.filter (fun (m : MsgRow) => decide (s ≤ m.created_at))
    | none => base
  ((filtered.insertionSort msgAsc).take 4000).map msgOutOf

/-- The whole durable store as seen from one user's requests. -/
structure DB where
  user : Option User
  chats : List ChatRow
  msgs : List MsgRow
  tasks : Option TasksState
deriving DecidableEq

/-- `loadTasksState(tg_id)`: `data?.state || { groups: [] }`. -/
def loadTasksState (tasks : Option TasksState) : TasksState := tasks.getD ⟨[]⟩

/-- The body of the `/api/sync/pull` response that depends on the store. -/
structure PullResp where
  chats : List ChatOut
  messages : List MsgOut
  tasks_state : TasksState
  tier : String
  plans_left : Int
  media_left : Int
deriving DecidableEq

/-- `app.post("/api/sync/pull")` after validation: resolve/freshen the user,
read the chat list, the since-filtered message list and the task state, and
answer with fresh counters.  Returns the response and the store. -/
def syncPull (db : DB) (tg : Nat) (since : Option Nat) (now : Nat) : PullResp × DB :=
  let user := getOrCreateUserAndFreshen db.user tg now
  (⟨listChats db.chats tg, listMessages db.msgs tg since, loadTasksState db.tasks,
      effectiveTier user now, numOr0 user.plans_left, numOr0 user.media_left⟩,
    { db with user := some user })

/-- `app.post("/api/sync/push")` after validation: resolve/freshen the user,
upsert the submitted chats and messages, and wholesale-replace the task state
when one is submitted (`saveTasksState` replaces a non-object payload by the
empty default). -/
def syncPush (db : DB) (tg : Nat) (chatsIn : List ChatIn) (msgsIn : List MsgIn)
    (tasks : Option TasksState) (now : Nat) : DB :=
  let user := getOrCreateUserAndFreshen db.user tg now
  { user := some user
    chats := upsertChats db.chats tg chatsIn now
    msgs := upsertMessages db.msgs tg msgsIn now
    tasks := match tasks with | some t => some t | none => db.tasks }

/-- `app.post("/api/chat/send")` after validation (text chat, no quota spend):
resolve/freshen the user, ensure the chat exists, insert the user message,
bump the chat, call the model (`answer` is the external model's reply),
insert the assistant message and bump the chat again. -/
def chatSend (db : DB) (tg : Nat) (chatId text answer userMsgId aiMsgId : String)
    (now : Nat) : DB :=
  let user := getOrCreateUserAndFreshen db.user tg now
  let chats1 := getOrCreateChat db.chats tg chatId "Чат" "💬" now
  let msgs1 := db.msgs ++ [⟨tg, chatId, some userMsgId, "user", text, now⟩]
  let chats2 := touchChatUpdatedAt chats1 tg chatId now
  let msgs2 := msgs1 ++ [⟨tg, chatId, some aiMsgId, "assistant", answer, now⟩]
  let chats3 := touchChatUpdatedAt chats2 tg chatId now
  { user := some user, chats := chats3, msgs := msgs2, tasks := db.tasks }

/-- The user-row effect of `app.post("/api/chat/attach")` past validation: one
`consumeQuota(tg_id, "media")`; on denial the handler answers 403 without
further user-row writes, on grant the remaining work touches only chats and
messages. -/
def attachUserRow (row : Option User) (tg now : Nat) : User :=
  (consumeQuota row tg now .media).user

/-- The user-row effect of `app.post("/api/plan/create")` past validation: one
`consumeQuota(tg_id, "plans")`; on grant, unless the chat transcript is empty
(which returns early), the generated plan document is stored in
`current_plan`. -/
def planCreateUserRow (row : Option User) (tg now : Nat)
    (transcriptEmpty : Bool) (planDoc : String) : User :=
  let q := consumeQuota row tg now .plans
  if !q.ok then q.user
  else if transcriptEmpty then q.user
  else { q.user with current_plan := some planDoc }

/-- State of two concurrent `consumeQuota` calls against the same stored user
row.  Each client runs the handler's two store operations in order: the
`SELECT` inside `getOrCreateUserAndFreshen` (which performs no write when the
row exists, carries a reset timestamp and is not yet due), then — computed
from its own selected copy — the final `UPDATE` that stores the absolute
value `left - 1`.  `regᵢ` holds client i's selected copy, `resᵢ` the
`(ok, error)` outcome once the call finished. -/
structure RaceState where
  row : User
  reg1 : Option User
  reg2 : Option User
  res1 : Option (Bool × Option String)
  res2 : Option (Bool × Option String)
deriving DecidableEq

/-- The decision-and-update half of `consumeQuota`, computed from the client's
earlier `SELECT`ed copy `u` and applied to the currently stored row: unlimited
tiers and exhausted counters leave the row alone; a grant stores the absolute
value `left - 1` taken from the copy. -/
def raceDecide (row u : User) (now : Nat) (kind : QKind) : User × (Bool × Option String) :=
  let tier := effectiveTier u now
  let lim := DAILY_LIMITS tier
  if tier = "developer" || (lim.get kind).isNone then (row, (true, none))
  else
    let left := numOr0 (u.leftOf kind)
    if left ≤ 0 then
      (row, (false, some (match kind with
        | .media => "no_media_left" | .plans => "no_plans_left")))
    else (row.setLeft kind (left - 1), (true, none))

/-- One scheduler step: run the next pending store operation of the chosen
client (`true` = client 2); a finished client is left unchanged. -/
def raceStep (s : RaceState) (client2 : Bool) (now : Nat) (kind : QKind) : RaceState :=
  if client2 then
    match s.reg2, s.res2 with
    | none, _ => { s with reg2 := some s.row }
    | some u, none =>
        let d := raceDecide s.row u now kind
        { s with row := d.1, res2 := some d.2 }
    | some _, some _ => s
  else
    match s.reg1, s.res1 with
    | none, _ => { s with reg1 := some s.row }
    | some u, none =>
        let d := raceDecide s.row u now kind
        { s with row := d.1, res1 := some d.2 }
    | some _, some _ => s

/-- Run a schedule of interleaved store operations of the two clients against
the stored row `u`. -/
def raceRun (u : User) (sched : List Bool) (now : Nat) (kind : QKind) : RaceState :=
  sched.foldl (fun s c => raceStep s c now kind) ⟨u, none, none, none, none⟩

/-- Sequential iteration of `consumeQuota` against the user's own row: the row
stored after each call is the input of the next call. -/
def consumeIter (u : User) (now : Nat) (kind : QKind) : Nat → User
  | 0 => u
  | Nat.succ k =>
      (consumeQuota (some (consumeIter u now kind k)) (consumeIter u now kind k).tg_id
        now kind).user

/-- Number of stored message rows carrying the upsert key `(tg, mid)`. -/
def countWithKey (table : List MsgRow) (tg : Nat) (mid : String) : Nat :=
  (table.filter (fun x => x.tg_id == tg && x.msg_id == some mid)).length

/-- Most-recently-updated-first order on the projected chat rows of a pull
response. -/
def chatOutDesc (a b : ChatOut) : Prop := b.updated_at ≤ a.updated_at

/-- Oldest-first order on the projected message rows of a pull response. -/
def msgOutAsc (a b : MsgOut) : Prop := a.created_at ≤ b.created_at

/-- A free user with no premium, full free counters, and the boundary at the
first Almaty midnight after the epoch. -/
def freeUser1 : User := ⟨1, "free", none, some 3, some 3, some 68400000, none⟩

/-- One `successful_payment` update: `tg_id` 1, plan `month`, provider charge
id `"charge-1"` — delivered twice in the C1 scenario (a webhook retry). -/
def dupPayUpd : TgUpdate := .successfulPayment (some (1, "month")) "charge-1" "XTR" (some 100)

/-- A free user with exactly one remaining media unit. -/
def lastMediaUser : User := ⟨1, "free", none, some 3, some 1, some 68400000, none⟩

/-- A user whose stored tier label is `"premium"` but whose `premium_until`
has already passed, with depleted counters and a due reset boundary. -/
def expiredPremiumUser : User := ⟨1, "premium", some 10, some 0, some 0, some 5, none⟩

/-- A premium user whose entitlement is still active at time 100. -/
def premUser : User := ⟨1, "premium", some 200, some 5, some 5, some 68400000, none⟩

/-- A free user with a due reset boundary and depleted counters. -/
def dueFreeUser : User := ⟨1, "free", none, some 0, some 1, some 5, none⟩

/-- A valid push message carrying the client identifier `"m1"`. -/
def msgInA : MsgIn := ⟨"c1", "m1", "user", "hello", some 10⟩

/-- A valid push message without a client identifier. -/
def msgInB : MsgIn := ⟨"c1", "", "user", "hi", some 11⟩

/-- An invalid push message (no chat id, no content). -/
def msgInBad : MsgIn := ⟨"", "", "assistant", "", none⟩

/-- A chats table holding 201 distinct chats of user 1. -/
def chats201 : List ChatRow :=
  (List.range 201).map (fun i => ⟨1, toString i, "t", "e", i⟩)

lemma nextAlmatyMidnight_gt (now : Nat) : now < nextAlmatyMidnight now := by
  have h : now + RESET_TZ_OFFSET_MS < ((now + RESET_TZ_OFFSET_MS) / msPerDay + 1) * msPerDay := by
    have hmod := Nat.div_add_mod (now + RESET_TZ_OFFSET_MS) msPerDay
    have hlt : (now + RESET_TZ_OFFSET_MS) % msPerDay < msPerDay :=
      Nat.mod_lt _ (by norm_num [msPerDay])
    nlinarith [hmod, hlt]
  unfold nextAlmatyMidnight
  omega

lemma freshen_not_due (u : User) (tg now r : Nat)
    (hr : u.quota_next_reset_at = some r) (h : now < r) :
    getOrCreateUserAndFreshen (some u) tg now = u := by
  have hnd : ¬ (now ≥ r) := Nat.not_le.mpr h
  simp [getOrCreateUserAndFreshen, hr, hnd]

lemma freshen_due (u : User) (tg now r p m : Nat)
    (hr : u.quota_next_reset_at = some r) (hdue : r ≤ now)
    (hp : (DAILY_LIMITS (effectiveTier u now)).plans = some p)
    (hm : (DAILY_LIMITS (effectiveTier u now)).media = some m) :
    getOrCreateUserAndFreshen (some u) tg now
      = { u with
          plans_left := some (p : Int)
          media_left := some (m : Int)
          quota_next_reset_at := some (nextAlmatyMidnight now) } := by
  have hge : now ≥ r := hdue
  simp [getOrCreateUserAndFreshen, hr, hge, hp, hm]

lemma consume_grant (u : User) (tg now r : Nat) (kind : QKind) (l : Nat) (n : Int)
    (hr : u.quota_next_reset_at = some r) (h : now < r)
    (hfin : (DAILY_LIMITS (effectiveTier u now)).get kind = some l)
    (hleft : u.leftOf kind = some n) (hn : 0 < n) :
    consumeQuota (some u) tg now kind
      = { ok := true, error := none, user := u.setLeft kind (n - 1) } := by
  have hdev : effectiveTier u now ≠ "developer" := by
    intro hd
    rw [hd] at hfin
    simp [DAILY_LIMITS, TierLimits.get] at hfin
    cases kind <;> simp_all [TierLimits.get]
  have hfr := freshen_not_due u tg now r hr h
  simp [consumeQuota, hfr, hdev, hfin, hleft, numOr0, Int.not_le.mpr hn, Nat.not_le]

lemma consume_deny (u : User) (tg now r : Nat) (kind : QKind) (l : Nat) (n : Int)
    (hr : u.quota_next_reset_at = some r) (h : now < r)
    (hfin : (DAILY_LIMITS (effectiveTier u now)).get kind = some l)
    (hleft : u.leftOf kind = some n) (hn : n ≤ 0) :
    consumeQuota (some u) tg now kind
      = { ok := false,
          error := some (match kind with
            | .media => "no_media_left" | .plans => "no_plans_left"),
          user := u } := by
  have hdev : effectiveTier u now ≠ "developer" := by
    intro hd
    rw [hd] at hfin
    cases kind <;> simp_all [DAILY_LIMITS, TierLimits.get]
  have hfr := freshen_not_due u tg now r hr h
  simp [consumeQuota, hfr, hdev, hfin, hleft, numOr0, hn]
  cases kind <;> rfl

lemma consumeIter_eq (u : User) (now r : Nat) (N : Nat) (l : Nat)
    (hr : u.quota_next_reset_at = some r) (h : now < r)
    (hfin : (DAILY_LIMITS (effectiveTier u now)).get .plans = some l)
    (hN : u.plans_left = some (N : Int)) :
    ∀ k, k ≤ N → consumeIter u now .plans k = { u with plans_left := some ((N : Int) - k) } := by
  intro k
  induction k with
  | zero =>
      intro _
      have he : ({ u with plans_left := u.plans_left } : User) = u := rfl
      simp only [consumeIter, Nat.cast_zero, sub_zero, ← hN, he]
  | succ k ih =>
      intro hk
      have hk' : k ≤ N := Nat.le_of_succ_le hk
      have hik := ih hk'
      have hklt : (k : Int) < (N : Int) := by exact_mod_cast Nat.lt_of_succ_le hk
      have hpos : (0 : Int) < (N : Int) - k := by omega
      have hstep := consume_grant (consumeIter u now .plans k)
        (consumeIter u now .plans k).tg_id now r .plans l ((N : Int) - k)
        (by rw [hik]; exact hr)
        h
        (by rw [hik]; exact hfin)
        (by rw [hik]; rfl)
        hpos
      show (consumeQuota (some (consumeIter u now .plans k)) (consumeIter u now .plans k).tg_id
        now .plans).user = _
      rw [hstep]
      rw [hik]
      have harith : (N : Int) - k - 1 = (N : Int) - ((k + 1 : Nat) : Int) := by
        push_cast
        ring
      show ({ u with plans_left := some ((N : Int) - k - 1) } : User) = _
      rw [harith]

lemma consumeIter_deny (u : User) (now r : Nat) (N : Nat) (l : Nat)
    (hr : u.quota_next_reset_at = some r) (h : now < r)
    (hfin : (DAILY_LIMITS (effectiveTier u now)).get .plans = some l)
    (hN : u.plans_left = some (N : Int)) :
    consumeQuota (some (consumeIter u now .plans N)) (consumeIter u now .plans N).tg_id now .plans
      = { ok := false, error := some "no_plans_left", user := consumeIter u now .plans N } := by
  have hik := consumeIter_eq u now r N l hr h hfin hN N le_rfl
  have hd := consume_deny (consumeIter u now .plans N)
    (consumeIter u now .plans N).tg_id now r .plans l ((N : Int) - N)
    (by rw [hik]; exact hr) h (by rw [hik]; exact hfin) (by rw [hik]; rfl) (by omega)
  rw [hd]

lemma consumeIter_stable (u : User) (now r : Nat) (N : Nat) (l : Nat)
    (hr : u.quota_next_reset_at = some r) (h : now < r)
    (hfin : (DAILY_LIMITS (effectiveTier u now)).get .plans = some l)
    (hN : u.plans_left = some (N : Int)) :
    ∀ j, consumeIter u now .plans (N + j) = consumeIter u now .plans N := by
  intro j
  induction j with
  | zero => rfl
  | succ j ih =>
      show (consumeQuota (some (consumeIter u now .plans (N + j)))
        (consumeIter u now .plans (N + j)).tg_id now .plans).user = _
      rw [ih, consumeIter_deny u now r N l hr h hfin hN]

/-- C1: evaluation of the webhook at the failing input.  Delivering the same
`successful_payment` update (same user, same `provider_charge_id`) twice
stores exactly one payment row, but the second delivery is **not** skipped:
it extends `premium_until` a second time (60 days instead of 30), because the
code calls `activatePremiumForUser` whether or not the payment insert hit the
uniqueness conflict. -/
theorem c1_duplicate_payment_reactivates_premium :
    (((telegramWebhook none none dupPayUpd false ⟨[], some freeUser1⟩ 0).2.payments.length = 1)
      ∧ ((telegramWebhook none none dupPayUpd false
            (telegramWebhook none none dupPayUpd false ⟨[], some freeUser1⟩ 0).2 0).2.payments.length = 1))
    ∧ ((telegramWebhook none none dupPayUpd false ⟨[], some freeUser1⟩ 0).2.row.getD freeUser1).premium_until
        = some (30 * msPerDay)
    ∧ ((telegramWebhook none none dupPayUpd false
          (telegramWebhook none none dupPayUpd false ⟨[], some freeUser1⟩ 0).2 0).2.row.getD freeUser1).premium_until
        = some (60 * msPerDay) := by decide

/-- C2: evaluation of the decrement race at the failing input.  Two concurrent
`consumeQuota(1, "media")` calls against a user with exactly one remaining
media unit, interleaved as read-read-write-write, **both** succeed (the second
does not observe `no_media_left`), because the decrement is a read-then-write
of an absolute value rather than a conditional single-statement update.  The
resulting counter is 0. -/
theorem c2_concurrent_consume_both_succeed :
    (raceRun lastMediaUser [false, true, false, true] 0 .media).res1 = some (true, none)
    ∧ (raceRun lastMediaUser [false, true, false, true] 0 .media).res2 = some (true, none)
    ∧ (raceRun lastMediaUser [false, true, false, true] 0 .media).row.media_left = some 0 := by
  decide

/-- C3: for a user whose effective tier has a finite plans limit, whose reset
boundary has not passed, and whose row stores `plans_left = N`, each of the
first `N` sequential `consume(plans)` calls is granted and decrements the
counter by exactly one; the `(N+1)`-th call returns `ok = false` with error
`no_plans_left` and leaves the row unchanged; the counter ends at 0 and is
never negative at any point of the run. -/
theorem c3_exact_sequential_consumption (u : User) (now r : Nat) (N : Nat) (l : Nat)
    (hr : u.quota_next_reset_at = some r) (h : now < r)
    (hfin : (DAILY_LIMITS (effectiveTier u now)).get .plans = some l)
    (hN : u.plans_left = some (N : Int)) (_hpos : 0 < N) :
    (∀ k, k < N →
      (consumeQuota (some (consumeIter u now .plans k)) (consumeIter u now .plans k).tg_id
          now .plans).ok = true
        ∧ (consumeIter u now .plans (k + 1)).plans_left = some ((N : Int) - (k + 1 : Nat)))
    ∧ (consumeIter u now .plans N).plans_left = some 0
    ∧ consumeQuota (some (consumeIter u now .plans N)) (consumeIter u now .plans N).tg_id
          now .plans
        = { ok := false, error := some "no_plans_left", user := consumeIter u now .plans N }
    ∧ (∀ k, 0 ≤ numOr0 ((consumeIter u now .plans k).plans_left)) := by
  refine ⟨?_, ?_, ?_, ?_⟩
  · intro k hk
    have hik := consumeIter_eq u now r N l hr h hfin hN k (Nat.le_of_lt hk)
    have hklt : (k : Int) < (N : Int) := by exact_mod_cast hk
    have hstep := consume_grant (consumeIter u now .plans k)
      (consumeIter u now .plans k).tg_id now r .plans l ((N : Int) - k)
      (by rw [hik]; exact hr) h (by rw [hik]; exact hfin) (by rw [hik]; rfl) (by omega)
    constructor
    · rw [hstep]
    · have := consumeIter_eq u now r N l hr h hfin hN (k + 1) (Nat.succ_le_of_lt hk)
      rw [this]
  · have := consumeIter_eq u now r N l hr h hfin hN N le_rfl
    rw [this]
    simp
  · exact consumeIter_deny u now r N l hr h hfin hN
  · intro k
    rcases Nat.le_total k N with hle | hge
    · have := consumeIter_eq u now r N l hr h hfin hN k hle
      rw [this]
      have : (k : Int) ≤ (N : Int) := by exact_mod_cast hle
      simp [numOr0]
      omega
    · obtain ⟨j, rfl⟩ := Nat.exists_eq_add_of_le hge
      rw [consumeIter_stable u now r N l hr h hfin hN j,
        consumeIter_eq u now r N l hr h hfin hN N le_rfl]
      simp [numOr0]

/-- Witness for C3 at a concrete input: a fresh free user (3 plans) ends with
`plans_left = 0` after three sequential grants. -/
theorem c3_exact_sequential_consumption_witness :
    (consumeIter freeUser1 0 .plans 3).plans_left = some 0 :=
  (c3_exact_sequential_consumption freeUser1 0 68400000 3 3 rfl (by decide) (by decide)
    (by decide) (by decide)).2.1

/-- C4: `activatePremiumForUser` sets `premium_until` to
`max(existing premium_until, now) + planDurationDays(plan)` with month→30d and
year→365d; in particular a second `month` activation while `premium_until = T`
is still in the future yields `T + 30d`, not `now + 30d`. -/
theorem c4_activation_extends_from_max (row : Option User) (tg now : Nat) (plan : String)
    (_hplan : plan = "month" ∨ plan = "year") :
    (activatePremiumForUser row tg now plan).premium_until
      = some (max ((getOrCreateUserAndFreshen row tg now).premium_until.getD 0) now
          + planToDays plan * msPerDay)
    ∧ planToDays "month" = 30 ∧ planToDays "year" = 365
    ∧ (∀ T, (getOrCreateUserAndFreshen row tg now).premium_until = some T → now < T →
        (activatePremiumForUser row tg now "month").premium_until
          = some (T + 30 * msPerDay)) := by
  have hmain : ∀ p : String, (activatePremiumForUser row tg now p).premium_until
      = some (max ((getOrCreateUserAndFreshen row tg now).premium_until.getD 0) now
          + planToDays p * msPerDay) := by
    intro p
    simp only [activatePremiumForUser, addDaysMs]
    cases hpu : (getOrCreateUserAndFreshen row tg now).premium_until with
    | none => simp [isPremiumActive, hpu]
    | some t =>
        by_cases ht : t ≠ 0 ∧ now < t
        · have hact : isPremiumActive (getOrCreateUserAndFreshen row tg now) now = true := by
            simp [isPremiumActive, hpu, ht.1, ht.2]
          simp only [hact, if_true, hpu, Option.getD_some]
          have : max t now = t := Nat.max_eq_left (Nat.le_of_lt ht.2)
          rw [this]
        · have hact : isPremiumActive (getOrCreateUserAndFreshen row tg now) now = false := by
            simp only [isPremiumActive, hpu, Bool.and_eq_false_iff]
            rcases Decidable.not_and_iff_or_not.mp ht with h0 | hlt
            · left; simpa using h0
            · right; simpa using hlt
          simp only [hact, if_false, Bool.false_eq_true, hpu, Option.getD_some]
          have hmax : max t now = now := by
            rcases Decidable.not_and_iff_or_not.mp ht with h0 | hlt
            · have : t = 0 := by simpa using h0
              omega
            · have : ¬ now < t := hlt
              omega
          rw [hmax]
  refine ⟨hmain plan, rfl, rfl, ?_⟩
  intro T hT hlt
  rw [hmain "month", hT]
  have : max ((some T).getD 0) now = T := by
    simp only [Option.getD_some]
    omega
  rw [this]
  rfl

/-- Witness for C4 at a concrete input: a second month activation at time 100
for a user with active `premium_until = 200` yields `200 + 30d`. -/
theorem c4_activation_extends_from_max_witness :
    (activatePremiumForUser (some premUser) 1 100 "month").premium_until
      = some (200 + 30 * msPerDay) :=
  (c4_activation_extends_from_max (some premUser) 1 100 "month" (Or.inl rfl)).2.2.2
    200 (by decide) (by decide)

/-- C5 (amended): every request to the webhook is answered 200 — whatever the
update contents and even when processing throws internally — **except** when a
shared secret is configured and the request's secret header does not match,
in which case the handler answers 401. -/
theorem c5_amended_webhook_status (cfgSecret header : Option String) (upd : TgUpdate)
    (activateThrows : Bool) (st : WebhookState) (now : Nat) :
    (telegramWebhook cfgSecret header upd activateThrows st now).1
      = if cfgSecret.isSome && header != cfgSecret then 401 else 200 := by
  unfold telegramWebhook
  split
  · rfl
  · cases upd with
    | preCheckout payload =>
        cases payload with
        | none => rfl
        | some p =>
            obtain ⟨tg, plan⟩ := p
            dsimp only
            split <;> rfl
    | successfulPayment payload chargeId currency amount =>
        cases payload with
        | none => rfl
        | some p =>
            obtain ⟨tg, plan⟩ := p
            dsimp only
            split
            · split <;> rfl
            · rfl
    | other => rfl

/-- C5 counterexample: with a configured secret and a missing secret header the
webhook answers 401, not 200 as claimed. -/
theorem c5_counterexample_bad_secret_is_401 :
    (telegramWebhook (some "s3cret") none .other false ⟨[], none⟩ 0).1 = 401 := by decide

lemma filter_length_map_if {α : Type} (p : α → Bool) (r : α) (hp : p r = true) :
    ∀ t : List α,
      ((t.map (fun x => if p x then r else x)).filter p).length = (t.filter p).length := by
  intro t
  induction t with
  | nil => rfl
  | cons x xs ih =>
      by_cases hpx : p x = true
      · simp only [List.map_cons, List.filter_cons, hpx, hp, if_true, List.length_cons, ih]
      · have hpx' : p x = false := Bool.eq_false_iff.mpr hpx
        simp only [List.map_cons, List.filter_cons, hpx', if_false, Bool.false_eq_true, ih]

lemma upsertMessages_single_id (t : List MsgRow) (tg : Nat) (m : MsgIn) (now : Nat)
    (hv : validMsg m = true) (hid : m.msg_id ≠ "") :
    upsertMessages t tg [m] now = upsertMsgRow t (mkMsgRow tg m now) := by
  have hid' : (m.msg_id == "") = false := by simpa using hid
  simp [upsertMessages, hv, hid', hid, List.filter_cons, List.foldl]

lemma countWithKey_upsert_fresh (t : List MsgRow) (r : MsgRow) (tg : Nat) (mid : String)
    (h1 : r.tg_id = tg) (h2 : r.msg_id = some mid)
    (h0 : countWithKey t tg mid = 0) :
    countWithKey (upsertMsgRow t r) tg mid = 1 := by
  have hnil : t.filter (fun x => x.tg_id == tg && x.msg_id == some mid) = [] :=
    List.length_eq_zero.mp h0
  have hnone : ∀ x ∈ t, (x.tg_id == tg && x.msg_id == some mid) = false := by
    intro x hx
    cases hxx : (x.tg_id == tg && x.msg_id == some mid) with
    | false => rfl
    | true =>
        have hmem : x ∈ t.filter (fun x => x.tg_id == tg && x.msg_id == some mid) :=
          List.mem_filter.mpr ⟨hx, hxx⟩
        rw [hnil] at hmem
        exact absurd hmem (List.not_mem_nil x)
  have hany : (t.any (fun x => x.tg_id == r.tg_id && x.msg_id == r.msg_id)) = false := by
    rw [h1, h2]
    rw [List.any_eq_false]
    intro x hx
    simp [hnone x hx]
  rw [upsertMsgRow, hany]
  simp only [Bool.false_eq_true, if_false]
  unfold countWithKey
  rw [List.filter_append]
  simp only [List.length_append, List.filter_cons]
  have hr : (r.tg_id == tg && r.msg_id == some mid) = true := by simp [h1, h2]
  unfold countWithKey at h0
  simp [hr, h0]

lemma countWithKey_upsert_existing (t : List MsgRow) (r : MsgRow) (tg : Nat) (mid : String)
    (h1 : r.tg_id = tg) (h2 : r.msg_id = some mid)
    (h0 : 0 < countWithKey t tg mid) :
    countWithKey (upsertMsgRow t r) tg mid = countWithKey t tg mid := by
  have hex : ∃ x ∈ t, (x.tg_id == tg && x.msg_id == some mid) = true := by
    by_contra hb
    push_neg at hb
    have : t.filter (fun x => x.tg_id == tg && x.msg_id == some mid) = [] := by
      rw [List.filter_eq_nil_iff]
      intro x hx
      have := hb x hx
      simpa using this
    unfold countWithKey at h0
    simp [this] at h0
  have hany : (t.any (fun x => x.tg_id == r.tg_id && x.msg_id == r.msg_id)) = true := by
    rw [h1, h2]
    rw [List.any_eq_true]
    obtain ⟨x, hx, hpx⟩ := hex
    exact ⟨x, hx, hpx⟩
  rw [upsertMsgRow, hany]
  simp only [if_true]
  have hr : ((fun x : MsgRow => x.tg_id == tg && x.msg_id == some mid) r) = true := by
    simp [h1, h2]
  unfold countWithKey
  have := filter_length_map_if (fun x : MsgRow => x.tg_id == tg && x.msg_id == some mid) r hr t
  rw [h1, h2] at *
  exact this

lemma upsertMessages_idless (t : List MsgRow) (tg : Nat) (ms : List MsgIn) (now : Nat)
    (h : ∀ m ∈ ms, validMsg m = true ∧ m.msg_id = "") :
    upsertMessages t tg ms now = t ++ ms.map (fun m => mkMsgRow tg m now) := by
  have hval : ms.filter validMsg = ms := List.filter_eq_self.mpr (fun m hm => (h m hm).1)
  have hwith : ms.filter (fun m => !decide (m.msg_id = "")) = [] := by
    rw [List.filter_eq_nil_iff]
    intro m hm
    simp [(h m hm).2]
  have hwout : ms.filter (fun m => m.msg_id == "") = ms :=
    List.filter_eq_self.mpr (fun m hm => by simp [(h m hm).2])
  simp [upsertMessages, hval, hwith, hwout]

lemma upsertMessages_invalid (t : List MsgRow) (tg : Nat) (ms : List MsgIn) (now : Nat)
    (h : ∀ m ∈ ms, validMsg m = false) : upsertMessages t tg ms now = t := by
  have hval : ms.filter validMsg = [] := by
    rw [List.filter_eq_nil_iff]
    intro m hm
    simp [h m hm]
  simp [upsertMessages, hval]

lemma mkMsgRow_key (tg : Nat) (m : MsgIn) (now : Nat) (hid : m.msg_id ≠ "") :
    (mkMsgRow tg m now).tg_id = tg ∧ (mkMsgRow tg m now).msg_id = some m.msg_id := by
  constructor
  · rfl
  · show (if m.msg_id = "" then none else some m.msg_id) = some m.msg_id
    rw [if_neg hid]

/-- C6: the push-side message merge partitions by identifier — pushing a valid
id-bearing message twice leaves exactly one row with that key; pushing a batch
of valid id-less messages twice appends the batch twice (2N rows on top of the
table); and a batch of invalid rows (no chat id, unknown role, or empty
content) is dropped silently, leaving the table untouched. -/
theorem c6_push_merge_policy :
    (∀ (t : List MsgRow) (tg : Nat) (m : MsgIn) (now now' : Nat),
      validMsg m = true → m.msg_id ≠ "" → countWithKey t tg m.msg_id = 0 →
      countWithKey (upsertMessages (upsertMessages t tg [m] now) tg [m] now') tg m.msg_id = 1)
    ∧ (∀ (t : List MsgRow) (tg : Nat) (ms : List MsgIn) (now now' : Nat),
      (∀ m ∈ ms, validMsg m = true ∧ m.msg_id = "") →
      (upsertMessages (upsertMessages t tg ms now) tg ms now').length
        = t.length + 2 * ms.length)
    ∧ (∀ (t : List MsgRow) (tg : Nat) (ms : List MsgIn) (now : Nat),
      (∀ m ∈ ms, validMsg m = false) → upsertMessages t tg ms now = t) := by
  refine ⟨?_, ?_, ?_⟩
  · intro t tg m now now' hv hid h0
    rw [upsertMessages_single_id t tg m now hv hid,
      upsertMessages_single_id _ tg m now' hv hid]
    obtain ⟨hk1, hk2⟩ := mkMsgRow_key tg m now hid
    obtain ⟨hk1', hk2'⟩ := mkMsgRow_key tg m now' hid
    have hfirst := countWithKey_upsert_fresh t (mkMsgRow tg m now) tg m.msg_id hk1 hk2 h0
    have hsecond := countWithKey_upsert_existing (upsertMsgRow t (mkMsgRow tg m now))
      (mkMsgRow tg m now') tg m.msg_id hk1' hk2' (by rw [hfirst]; exact Nat.one_pos)
    rw [hsecond, hfirst]
  · intro t tg ms now now' h
    rw [upsertMessages_idless t tg ms now h,
      upsertMessages_idless _ tg ms now' h]
    simp only [List.length_append, List.length_map]
    ring
  · intro t tg ms now h
    exact upsertMessages_invalid t tg ms now h

/-- Witness for C6 at concrete inputs: the same id-bearing message pushed twice
leaves one keyed row; one id-less message pushed twice leaves two rows; an
invalid row is dropped. -/
theorem c6_push_merge_policy_witness :
    countWithKey (upsertMessages (upsertMessages [] 1 [msgInA] 5) 1 [msgInA] 6) 1 "m1" = 1
    ∧ (upsertMessages (upsertMessages [] 1 [msgInB] 5) 1 [msgInB] 6).length = 2
    ∧ upsertMessages [] 1 [msgInBad] 5 = [] :=
  ⟨c6_push_merge_policy.1 [] 1 msgInA 5 6 (by decide) (by decide) (by decide),
    c6_push_merge_policy.2.1 [] 1 [msgInB] 5 6 (by decide),
    c6_push_merge_policy.2.2 [] 1 [msgInBad] 5 (by decide)⟩

/-- C7 (amended): the sweep transition and the lazy reset coincide exactly for
due users whose stored tier label (`"free"` or `"premium"`) equals their
effective tier; both then also recompute the same boundary, and applying the
two resets one after the other, in either order, equals applying one (the
second pass is a no-op because the recomputed boundary lies in the future).
They differ for users whose stored label disagrees with the effective tier —
see the counterexample. -/
theorem c7_amended_reset_agree (u : User) (tg now r : Nat)
    (hr : u.quota_next_reset_at = some r) (hdue : r ≤ now)
    (htier : u.tier = "free" ∨ u.tier = "premium")
    (heff : effectiveTier u now = u.tier) :
    sweepResetUser u now = getOrCreateUserAndFreshen (some u) tg now
    ∧ sweepResetUser (getOrCreateUserAndFreshen (some u) tg now) now
        = getOrCreateUserAndFreshen (some u) tg now
    ∧ getOrCreateUserAndFreshen (some (getOrCreateUserAndFreshen (some u) tg now)) tg now
        = getOrCreateUserAndFreshen (some u) tg now := by
  have hnd : ¬ (nextAlmatyMidnight now ≤ now) := Nat.not_le.mpr (nextAlmatyMidnight_gt now)
  rcases htier with hfree | hprem
  · have hfr := freshen_due u tg now r 3 3 hr hdue
      (by rw [heff, hfree]; rfl) (by rw [heff, hfree]; rfl)
    refine ⟨?_, ?_, ?_⟩
    · rw [hfr]
      simp [sweepResetUser, hr, hdue, hfree, DAILY_LIMITS]
    · rw [hfr]
      simp [sweepResetUser, hnd]
    · rw [hfr]
      exact freshen_not_due _ tg now (nextAlmatyMidnight now) rfl (nextAlmatyMidnight_gt now)
  · have hfr := freshen_due u tg now r 30 30 hr hdue
      (by rw [heff, hprem]; rfl) (by rw [heff, hprem]; rfl)
    refine ⟨?_, ?_, ?_⟩
    · rw [hfr]
      simp [sweepResetUser, hr, hdue, hprem, DAILY_LIMITS]
    · rw [hfr]
      simp [sweepResetUser, hnd]
    · rw [hfr]
      exact freshen_not_due _ tg now (nextAlmatyMidnight now) rfl (nextAlmatyMidnight_gt now)

/-- C7 counterexample: for a due user whose stored label is `"premium"` but
whose premium has expired, the sweep writes the premium limits (30) while the
lazy reset writes the free limits (3) — the two reset paths are not the
identical transition. -/
theorem c7_counterexample_expired_premium :
    (resetDueUsersBatch [expiredPremiumUser] 100).map User.plans_left = [some 30]
    ∧ (getOrCreateUserAndFreshen (some expiredPremiumUser) 1 100).plans_left = some 3 := by
  decide

/-- Witness for C7 at a concrete input: for a due free user the sweep and the
lazy reset produce the same row. -/
theorem c7_amended_reset_agree_witness :
    sweepResetUser dueFreeUser 100 = getOrCreateUserAndFreshen (some dueFreeUser) 1 100 :=
  (c7_amended_reset_agree dueFreeUser 1 100 5 rfl (by decide) (Or.inl rfl) (by decide)).1

/-- C8: for an existing user whose stored boundary is due, the next resolution
resets both counters to the effective tier's configured daily limits (when
finite), whatever their depleted values were, and advances the boundary to
the next daily boundary, which lies strictly in the future. -/
theorem c8_lazy_reset_restores_limits (u : User) (tg now r p m : Nat)
    (hr : u.quota_next_reset_at = some r) (hdue : r ≤ now)
    (hp : (DAILY_LIMITS (effectiveTier u now)).plans = some p)
    (hm : (DAILY_LIMITS (effectiveTier u now)).media = some m) :
    getOrCreateUserAndFreshen (some u) tg now
      = { u with
          plans_left := some (p : Int)
          media_left := some (m : Int)
          quota_next_reset_at := some (nextAlmatyMidnight now) }
    ∧ now < nextAlmatyMidnight now :=
  ⟨freshen_due u tg now r p m hr hdue hp hm, nextAlmatyMidnight_gt now⟩

/-- Witness for C8 at a concrete input: a due free user with depleted counters
is restored to 3/3 with the recomputed boundary. -/
theorem c8_lazy_reset_restores_limits_witness :
    getOrCreateUserAndFreshen (some dueFreeUser) 1 100
      = { dueFreeUser with
          plans_left := some 3
          media_left := some 3
          quota_next_reset_at := some (nextAlmatyMidnight 100) } :=
  (c8_lazy_reset_restores_limits dueFreeUser 1 100 5 3 3 rfl (by decide) (by decide)
    (by decide)).1



lemma listChats_sorted (chats : List ChatRow) (tg : Nat) :
    List.Pairwise chatOutDesc (listChats chats tg) := by
  unfold listChats
  have s1 : List.Pairwise chatDesc
      ((chats.filter (fun c => c.tg_id == tg)).insertionSort chatDesc) :=
    List.sorted_insertionSort chatDesc _
  have s2 : List.Pairwise chatDesc
      (((chats.filter (fun c => c.tg_id == tg)).insertionSort chatDesc).take 200) :=
    s1.sublist (List.take_sublist 200 _)
  exact List.Pairwise.map chatOutOf (fun a b h => h) s2

lemma listChats_perm (chats : List ChatRow) (tg : Nat)
    (h : (chats.filter (fun c => c.tg_id == tg)).length ≤ 200) :
    List.Perm (listChats chats tg) ((chats.filter (fun c => c.tg_id == tg)).map chatOutOf) := by
  unfold listChats
  rw [List.take_of_length_le (by rw [List.length_insertionSort]; exact h)]
  exact (List.perm_insertionSort chatDesc _).map chatOutOf

lemma listMessages_sorted (msgs : List MsgRow) (tg : Nat) (since : Option Nat) :
    List.Pairwise msgOutAsc (listMessages msgs tg since) := by
  unfold listMessages
  cases since with
  | none =>
      have s1 := List.sorted_insertionSort msgAsc (msgs.filter (fun m => m.tg_id == tg))
      exact List.Pairwise.map msgOutOf (fun a b h => h) (s1.sublist (List.take_sublist 4000 _))
  | some s =>
      have s1 := List.sorted_insertionSort msgAsc
        ((msgs.filter (fun m => m.tg_id == tg)).filter (fun m => decide (s ≤ m.created_at)))
      exact List.Pairwise.map msgOutOf (fun a b h => h) (s1.sublist (List.take_sublist 4000 _))

lemma listMessages_perm_some (msgs : List MsgRow) (tg : Nat) (s : Nat)
    (h : ((msgs.filter (fun m => m.tg_id == tg)).filter
      (fun m => decide (s ≤ m.created_at))).length ≤ 4000) :
    List.Perm (listMessages msgs tg (some s))
      (((msgs.filter (fun m => m.tg_id == tg)).filter
        (fun m => decide (s ≤ m.created_at))).map msgOutOf) := by
  unfold listMessages
  dsimp only
  rw [List.take_of_length_le (by rw [List.length_insertionSort]; exact h)]
  exact (List.perm_insertionSort msgAsc _).map msgOutOf

lemma listMessages_perm_none (msgs : List MsgRow) (tg : Nat)
    (h : (msgs.filter (fun m => m.tg_id == tg)).length ≤ 4000) :
    List.Perm (listMessages msgs tg none)
      ((msgs.filter (fun m => m.tg_id == tg)).map msgOutOf) := by
  unfold listMessages
  dsimp only
  rw [List.take_of_length_le (by rw [List.length_insertionSort]; exact h)]
  exact (List.perm_insertionSort msgAsc _).map msgOutOf

/-- C9 (amended): `pull` returns the user's chats ordered by `updated_at`
descending and the user's messages — filtered by `created_at ≥ since` when a
cursor is supplied — ordered by `created_at` ascending, together with the
stored task-state document (or the empty default); the returned rows are
exactly the matching rows whenever they fit under the query caps (200 chats,
4000 messages), and the chat snapshot depends only on the set of stored rows,
not on the order they were pushed.  Beyond the caps the claim's "all" fails —
see the counterexample. -/
theorem c9_amended_pull_snapshot :
    (∀ (chats : List ChatRow) (tg : Nat), List.Pairwise chatOutDesc (listChats chats tg))
    ∧ (∀ (chats : List ChatRow) (tg : Nat),
        (chats.filter (fun c => c.tg_id == tg)).length ≤ 200 →
        List.Perm (listChats chats tg) ((chats.filter (fun c => c.tg_id == tg)).map chatOutOf))
    ∧ (∀ (msgs : List MsgRow) (tg : Nat) (since : Option Nat),
        List.Pairwise msgOutAsc (listMessages msgs tg since))
    ∧ (∀ (msgs : List MsgRow) (tg : Nat) (s : Nat),
        ((msgs.filter (fun m => m.tg_id == tg)).filter
          (fun m => decide (s ≤ m.created_at))).length ≤ 4000 →
        List.Perm (listMessages msgs tg (some s))
          (((msgs.filter (fun m => m.tg_id == tg)).filter
            (fun m => decide (s ≤ m.created_at))).map msgOutOf))
    ∧ (∀ (msgs : List MsgRow) (tg : Nat),
        (msgs.filter (fun m => m.tg_id == tg)).length ≤ 4000 →
        List.Perm (listMessages msgs tg none)
          ((msgs.filter (fun m => m.tg_id == tg)).map msgOutOf))
    ∧ (∀ (db : DB) (tg : Nat) (since : Option Nat) (now : Nat),
        (syncPull db tg since now).1.chats = listChats db.chats tg
          ∧ (syncPull db tg since now).1.messages = listMessages db.msgs tg since
          ∧ (syncPull db tg since now).1.tasks_state = loadTasksState db.tasks)
    ∧ (∀ (c1 c2 : List ChatRow) (tg : Nat), List.Perm c1 c2 →
        (c1.filter (fun c => c.tg_id == tg)).length ≤ 200 →
        List.Perm (listChats c1 tg) (listChats c2 tg)) := by
  refine ⟨listChats_sorted, listChats_perm, listMessages_sorted,
    listMessages_perm_some, listMessages_perm_none, ?_, ?_⟩
  · intro db tg since now
    exact ⟨rfl, rfl, rfl⟩
  · intro c1 c2 tg hperm hlen
    have hpf : List.Perm (c1.filter (fun c => c.tg_id == tg))
        (c2.filter (fun c => c.tg_id == tg)) := hperm.filter _
    have hlen2 : (c2.filter (fun c => c.tg_id == tg)).length ≤ 200 := by
      rw [← hpf.length_eq]
      exact hlen
    exact ((listChats_perm c1 tg hlen).trans (hpf.map chatOutOf)).trans
      (listChats_perm c2 tg hlen2).symm

/-- C9 counterexample: with 201 stored chats of one user, `pull` returns only
200 of them, so it does not return **all** of the user's chat metadata. -/
theorem c9_counterexample_chat_cap :
    (listChats chats201 1).length = 200
    ∧ ((chats201.filter (fun c => c.tg_id == 1)).map chatOutOf).length = 201 := by
  have hf : chats201.filter (fun c => c.tg_id == 1) = chats201 := by
    apply List.filter_eq_self.mpr
    intro c hc
    simp only [chats201, List.mem_map, List.mem_range] at hc
    obtain ⟨i, _, rfl⟩ := hc
    rfl
  constructor
  · unfold listChats
    rw [hf, List.length_map, List.length_take, List.length_insertionSort]
    simp [chats201]
  · rw [hf, List.length_map]
    simp [chats201]

/-- C10: the text-chat endpoint never spends quota — `chatSend`'s only effect
on the user row is the lazy `getOrCreateUserAndFreshen` (so for a user whose
reset boundary has not passed the row, including `plans_left` and
`media_left`, is completely unchanged); `sync/pull` and `sync/push` likewise
touch the user row only through the lazy refresh; the media-attach and
plan-create paths are the ones that decrement a counter, each through one
`consumeQuota` call of its kind. -/
theorem c10_text_chat_spends_no_quota :
    (∀ (db : DB) (tg : Nat) (cid text ans um am : String) (now : Nat),
      (chatSend db tg cid text ans um am now).user
        = some (getOrCreateUserAndFreshen db.user tg now))
    ∧ (∀ (db : DB) (tg : Nat) (cid text ans um am : String) (now : Nat) (u : User) (r : Nat),
      db.user = some u → u.quota_next_reset_at = some r → now < r →
      (chatSend db tg cid text ans um am now).user = some u)
    ∧ (∀ (db : DB) (tg : Nat) (since : Option Nat) (now : Nat),
      (syncPull db tg since now).2.user = some (getOrCreateUserAndFreshen db.user tg now))
    ∧ (∀ (db : DB) (tg : Nat) (ci : List ChatIn) (mi : List MsgIn)
        (ts : Option TasksState) (now : Nat),
      (syncPush db tg ci mi ts now).user = some (getOrCreateUserAndFreshen db.user tg now))
    ∧ (∀ (u : User) (tg now r : Nat) (n : Int) (l : Nat),
      u.quota_next_reset_at = some r → now < r →
      (DAILY_LIMITS (effectiveTier u now)).get .media = some l →
      u.media_left = some n → 0 < n →
      attachUserRow (some u) tg now = u.setLeft .media (n - 1))
    ∧ (∀ (u : User) (tg now r : Nat) (n : Int) (l : Nat) (doc : String),
      u.quota_next_reset_at = some r → now < r →
      (DAILY_LIMITS (effectiveTier u now)).get .plans = some l →
      u.plans_left = some n → 0 < n →
      planCreateUserRow (some u) tg now false doc
        = { (u.setLeft .plans (n - 1)) with current_plan := some doc }) := by
  refine ⟨?_, ?_, ?_, ?_, ?_, ?_⟩
  · intro db tg cid text ans um am now
    rfl
  · intro db tg cid text ans um am now u r hu hr hlt
    show some (getOrCreateUserAndFreshen db.user tg now) = some u
    rw [hu, freshen_not_due u tg now r hr hlt]
  · intro db tg since now
    rfl
  · intro db tg ci mi ts now
    rfl
  · intro u tg now r n l hr hlt hfin hleft hn
    unfold attachUserRow
    rw [consume_grant u tg now r .media l n hr hlt hfin hleft hn]
  · intro u tg now r n l doc hr hlt hfin hleft hn
    unfold planCreateUserRow
    rw [consume_grant u tg now r .plans l n hr hlt hfin hleft hn]
    rfl

/-- Witness for C10 at a concrete input: sending a text message for a fresh
free user leaves the stored row exactly as it was. -/
theorem c10_text_chat_spends_no_quota_witness :
    (chatSend ⟨some freeUser1, [], [], none⟩ 1 "c1" "hi" "yo" "m1" "m2" 7).user
      = some freeUser1 :=
  c10_text_chat_spends_no_quota.2.1 ⟨some freeUser1, [], [], none⟩ 1 "c1" "hi" "yo" "m1" "m2" 7
    freeUser1 68400000 rfl rfl (by decide)

/-- Witness for C9 at a concrete input: a one-chat store is returned in full. -/
theorem c9_amended_pull_snapshot_witness :
    List.Perm (listChats [(⟨1, "a", "t", "e", 5⟩ : ChatRow)] 1)
      (([(⟨1, "a", "t", "e", 5⟩ : ChatRow)].filter (fun c => c.tg_id == 1)).map chatOutOf) :=
  c9_amended_pull_snapshot.2.1 [⟨1, "a", "t", "e", 5⟩] 1 (by decide)

end Lsd
